import Mathlib

/-!
Verification of the finai acquisition pipeline.

This file gives a shallow embedding, in Lean 4, of the core of the
acquisition pipeline (rate limiter, retry decorator, discovery, artifact
download with deduplication and secondary image discovery, retry sweeps,
and the local storage adapter), translated from the Python source under
`src/`, and proves or refutes the specification claims about it.

Conventions:
- machine integers and byte strings are modelled as `Nat` / `List Nat`;
- wall-clock time is modelled as `ℚ` (seconds);
- fallible operations return `Except`/`Option` or take explicit oracles
  (e.g. a fetch function `String → Except String (List Nat)`) standing for
  the outcome of the corresponding I/O call;
- database rows are Lean structures, a table is a `List` of rows, and an
  SQLAlchemy session is explicit state passing.
-/

/-! ## Rate limiter (`src/utils/rate_limiter.py`, `SECRateLimiter`) -/

/-- The sleep computed inside `SECRateLimiter.wait`:
`elapsed = now - last_request_time`; if `elapsed < min_interval` the thread
sleeps `min_interval - elapsed`, otherwise it does not sleep. -/
def sleep_time (min_interval last now : ℚ) : ℚ :=
  if now - last < min_interval then min_interval - (now - last) else 0

/-- One completed call of `SECRateLimiter.wait` with `requests_per_second = R`,
relating the previously recorded `last_request_time` (`last`) to the newly
recorded one (`t2`).  The body reads the clock (`now`), sleeps
`sleep_time (1/R) last now`, then reads the clock again and stores that second
reading; since the clock only moves forward and `time.sleep` sleeps at least
the requested duration, the second reading satisfies
`now + sleep_time (1/R) last now ≤ t2`.  The lock serializes the calls, so a
concurrent execution is some interleaving of these steps. -/
def WaitStep (R last t2 : ℚ) : Prop :=
  ∃ now : ℚ, now + sleep_time (1 / R) last now ≤ t2

/-! ## Network-effect traces of the HTTP entry points
(`src/services/sec_api.py`, `src/services/downloader.py`) -/

/-- A network-relevant effect: a call to the shared `SECRateLimiter.wait()`
or an HTTP GET of a URL. -/
inductive NetEvent
  | rlWait
  | httpGet (url : String)
  deriving Repr, DecidableEq

/-- Effect trace of `SECAPIClient._make_request(url)` (src/services/sec_api.py):
`self.rate_limiter.wait()` followed by `client.get(url, ...)`. -/
def make_request_trace (url : String) : List NetEvent :=
  [NetEvent.rlWait, NetEvent.httpGet url]

/-- Effect trace of `SECAPIClient.download_file(url, ...)`:
`self.rate_limiter.wait()` followed by a streamed GET of `url`. -/
def download_file_trace (url : String) : List NetEvent :=
  [NetEvent.rlWait, NetEvent.httpGet url]

/-- Effect trace of the content fetch (step 2) in
`ArtifactDownloader.download_artifact` (src/services/downloader.py): the body
calls `httpx.get(artifact.url, ...)` directly — it does not go through
`self.sec_client`, so no `SECRateLimiter.wait()` is issued for it. -/
def download_artifact_fetch_trace (url : String) : List NetEvent :=
  [NetEvent.httpGet url]

/-- Effect trace of the image fetch in
`ArtifactDownloader.download_and_record_image`: likewise a direct
`httpx.get(full_url, ...)` with no rate-limiter call. -/
def download_and_record_image_fetch_trace (url : String) : List NetEvent :=
  [NetEvent.httpGet url]

/-! ## Retry decorator (`src/utils/__init__.py`, `retry_with_backoff`) -/

/-- Python exceptions relevant to the retry decorator's call sites.
`httpx.HTTPStatusError` (raised by `response.raise_for_status()` for every
4xx/5xx status, carrying the status code) and transport errors (timeouts,
connection resets, ...) both subclass `httpx.HTTPError`; anything else is
some other exception class. -/
inductive PyExc
  | httpStatusError (code : Nat)
  | httpTransportError (msg : String)
  | other (msg : String)
  deriving Repr, DecidableEq

/-- The retry predicate produced by `exceptions=(httpx.HTTPError,)` at the
`fetch_company_submissions` / `fetch_company_tickers` call sites: an
`isinstance(e, httpx.HTTPError)` check, true for every status error
(any 4xx or 5xx, including 404 and 429) and every transport error. -/
def isHttpError : PyExc → Bool
  | PyExc.httpStatusError _ => true
  | PyExc.httpTransportError _ => true
  | PyExc.other _ => false

/-- The `for attempt in range(1, max_attempts + 1)` loop of
`retry_with_backoff` (src/utils/__init__.py).  `f a` is the outcome of the
wrapped call on attempt number `a`; the result records the final outcome
(`Except.error e` models the exception `e` propagating out of the wrapper),
the attempt number on which the loop exited, and the list of sleeps
performed, in seconds.  `fuel` is the number of remaining loop iterations;
the source's unreachable `return None` after the loop corresponds to
`fuel = 0`. -/
def retryLoop (f : Nat → Except PyExc α) (retryOn : PyExc → Bool)
    (maxAttempts : Nat) (backoffFactor : ℚ) :
    Nat → Nat → ℚ → List ℚ → Except PyExc α × Nat × List ℚ
  | 0, attempt, _, sleeps => (Except.error (PyExc.other "unreachable"), attempt, sleeps)
  | fuel + 1, attempt, delay, sleeps =>
    match f attempt with
    | Except.ok a => (Except.ok a, attempt, sleeps)
    | Except.error e =>
      if retryOn e = false then (Except.error e, attempt, sleeps)
      else if attempt = maxAttempts then (Except.error e, attempt, sleeps)
      else retryLoop f retryOn maxAttempts backoffFactor fuel (attempt + 1)
          (delay * backoffFactor) (sleeps ++ [delay])

/-- `retry_with_backoff(max_attempts, initial_delay, backoff_factor,
exceptions)` applied to a function `f`: run the loop starting at attempt 1
with the initial delay. -/
def retry_with_backoff (maxAttempts : Nat) (initialDelay backoffFactor : ℚ)
    (retryOn : PyExc → Bool) (f : Nat → Except PyExc α) :
    Except PyExc α × Nat × List ℚ :=
  retryLoop f retryOn maxAttempts backoffFactor maxAttempts 1 initialDelay []

/-- The retry policy decorating `SECAPIClient.fetch_company_submissions`:
`@retry_with_backoff(max_attempts=3, initial_delay=10.0,
exceptions=(httpx.HTTPError,))` with the default `backoff_factor=2.0`. -/
def fetch_company_submissions_retry (f : Nat → Except PyExc α) :
    Except PyExc α × Nat × List ℚ :=
  retry_with_backoff 3 10 2 isHttpError f

/-! ## Local storage adapter (`src/services/storage.py`) -/

/-- A filesystem node: a regular file with its byte content, or a directory. -/
inductive FsNode
  | file (content : List Nat)
  | dir
  deriving Repr, DecidableEq

/-- A filesystem: a finite map from paths — lists of components, relative to
the adapter's `root_path` — to nodes, as an association list. -/
abbrev Fs := List (List String × FsNode)

def fsLookup : Fs → List String → Option FsNode
  | [], _ => none
  | e :: rest, p => if e.1 = p then some e.2 else fsLookup rest p

def fsSet : Fs → List String → FsNode → Fs
  | [], p, n => [(p, n)]
  | e :: rest, p, n => if e.1 = p then (p, n) :: rest else e :: fsSet rest p n

def fsRemove : Fs → List String → Fs
  | [], _ => []
  | e :: rest, p => if e.1 = p then fsRemove rest p else e :: fsRemove rest p

/-- One directory-creation step of `mkdir(parents=True, exist_ok=True)`:
creating a single directory raises if the path already exists as a regular
file, is a no-op if it already is a directory, and records it otherwise. -/
def mkdirOne (fs : Fs) (p : List String) : Except String Fs :=
  match fsLookup fs p with
  | some (FsNode.file _) => Except.error "FileExistsError"
  | some FsNode.dir => Except.ok fs
  | none => Except.ok (fsSet fs p FsNode.dir)

/-- The nonempty prefixes of a path, shortest first: the chain of ancestor
directories `mkdir(parents=True)` creates. -/
def pathPrefixes : List String → List (List String)
  | [] => []
  | x :: xs => [x] :: (pathPrefixes xs).map (x :: ·)

/-- `full_path.parent.mkdir(parents=True, exist_ok=True)`: create every
ancestor directory of `p` in order, failing if any exists as a file. -/
def mkdir_parents (fs : Fs) (p : List String) : Except String Fs :=
  (pathPrefixes p).foldlM mkdirOne fs

/-- Characters before the last `'.'` of a character list; the whole list
when it contains no `'.'`.  This is `s.rsplit('.', 1)[0]` on a single path
component, and the base that `pathlib.Path.with_suffix` keeps. -/
def last_dot_base (cs : List Char) : List Char :=
  match cs.reverse.dropWhile (fun c => c ≠ '.') with
  | [] => cs
  | _ :: rest => rest.reverse

/-- `pathlib.Path.stem`-style base of a file name: the part before the last
dot, the whole name when it has no dot (names with a nonempty base, as the
pipeline produces). -/
def path_stem (name : String) : String :=
  String.mk (last_dot_base name.data)

/-- `LocalFileSystemAdapter.write(path, content)` (src/services/storage.py).
The destination path is `pre ++ [name]`; `writeOk` and `replaceOk` are
oracles for whether `temp_path.write_bytes` and `temp_path.replace` succeed
at the OS level (disk full, permissions, ...).  The source runs
`full_path.parent.mkdir(parents=True, exist_ok=True)` BEFORE the `try`
block, so an exception from it propagates out of `write` (modelled as
`Except.error`); inside the `try`, the content is written to the sibling
`full_path.with_suffix('.tmp')` and atomically renamed onto the final path,
and any exception is caught, returning `False`. -/
def LocalFileSystemAdapter.write (fs : Fs) (path : List String)
    (content : List Nat) (writeOk replaceOk : Bool) :
    Except String (Bool × Fs) :=
  match mkdir_parents fs path.dropLast with
  | Except.error e => Except.error e
  | Except.ok fs1 =>
    match path.getLast? with
    | none => Except.ok (false, fs1)
    | some name =>
      let tempPath := path.dropLast ++ [path_stem name ++ ".tmp"]
      if writeOk then
        let fs2 := fsSet fs1 tempPath (FsNode.file content)
        if replaceOk then
          Except.ok (true, fsSet (fsRemove fs2 tempPath) path (FsNode.file content))
        else
          Except.ok (false, fs2)
      else
        Except.ok (false, fs1)

/-- `StorageService.save_artifact(path, content)`: a direct delegation to
the adapter's `write`. -/
def save_artifact (fs : Fs) (path : List String) (content : List Nat)
    (writeOk replaceOk : Bool) : Except String (Bool × Fs) :=
  LocalFileSystemAdapter.write fs path content writeOk replaceOk

/-! ## Artifact rows and the retry sweeps
(`src/models/__init__.py`, `src/repair_failed_artifacts.py`,
`src/jobs/incremental.py`) -/

/-- A row of the `artifacts` table (src/models/__init__.py, class
`Artifact`).  Statuses are the strings the code stores:
`'pending_download'`, `'downloading'`, `'downloaded'`, `'skipped'`,
`'failed'` (the spec's `pending` is the code's `'pending_download'`).
The datetime audit columns (`last_attempt_at`, `downloaded_at`,
`created_at`) are not represented: no claim depends on their values. -/
structure Artifact where
  id : Nat
  filingId : Nat
  artifactType : String
  filename : String
  localPath : Option String
  url : String
  fileSize : Option Nat
  sha256 : Option String
  status : String
  retryCount : Nat
  maxRetries : Nat
  errorMessage : Option String
  deriving Repr, DecidableEq

/-- Eligibility filter of `repair_failed_artifacts`:
`Artifact.status == 'failed' AND Artifact.retry_count < max_retry`. -/
def repairEligible (maxRetry : Nat) (a : Artifact) : Bool :=
  a.status == "failed" && a.retryCount < maxRetry

/-- `repair_failed_artifacts(exchanges=None, batch_size, max_retry)`
(src/repair_failed_artifacts.py): count the failed artifacts and those at
or over the retry limit, then set `status = 'pending_download'` for every
failed artifact with `retry_count < max_retry` — and nothing else.  The
batched commits partition the eligible id set, so the net database effect
is the single pass modelled here; the result is
`(total_failed, requeued, skipped)`. -/
def repair_failed_artifacts (maxRetry : Nat) (db : List Artifact) :
    List Artifact × Nat × Nat × Nat :=
  let totalFailed := (db.filter (fun a => a.status == "failed")).length
  let skipped := (db.filter (fun a => a.status == "failed" && maxRetry ≤ a.retryCount)).length
  let requeued := (db.filter (repairEligible maxRetry)).length
  (db.map (fun a =>
      if repairEligible maxRetry a then { a with status := "pending_download" } else a),
    totalFailed, requeued, skipped)

/-- `calculate_retry_delay(retry_count, base_delay)` (src/utils/__init__.py):
exponential backoff `base_delay * 2 ** retry_count`. -/
def calculate_retry_delay (retryCount baseDelay : Nat) : Nat :=
  baseDelay * 2 ^ retryCount

/-- The scheduling block of `IncrementalUpdateJob.retry_failed_artifacts`
(src/jobs/incremental.py), run after a failed attempt while
`retry_count < max_retries`: upsert the artifact's `RetryQueue` row with
`scheduled_for = utcnow + calculate_retry_delay(retry_count)`.  The queue
is a list of `(artifact_id, scheduled_for)` rows; the artifacts table `db`
is only passed through. -/
def schedule_retry (db : List Artifact) (queue : List (Nat × Nat))
    (artifactId now retryCount : Nat) : List Artifact × List (Nat × Nat) :=
  let t := now + calculate_retry_delay retryCount 60
  if queue.any (fun e => e.1 == artifactId) then
    (db, queue.map (fun e => if e.1 == artifactId then (e.1, t) else e))
  else
    (db, queue ++ [(artifactId, t)])

/-! ## Submission discovery (`src/services/sec_api.py` `parse_filings`,
`src/jobs/backfill.py` `BackfillJob.process_company_filings`) -/

/-- A calendar date. -/
structure DateYMD where
  year : Nat
  month : Nat
  day : Nat
  deriving Repr, DecidableEq

/-- Date comparison, as Python compares `datetime.date` values. -/
def dateLe (a b : DateYMD) : Bool :=
  a.year < b.year || (a.year == b.year && (a.month < b.month ||
    (a.month == b.month && a.day ≤ b.day)))

/-- One entry of the parallel arrays under `filings.recent` in a company's
submission feed: accession number, form type, filing date, the month of the
optional report date (the only part of it `determine_fiscal_period` reads),
and the primary-document file name. -/
structure FeedEntry where
  accessionNumber : String
  form : String
  filingDate : DateYMD
  reportMonth : Option Nat
  primaryDocument : String
  deriving Repr, DecidableEq

/-- `SECAPIClient.parse_filings(submissions, form_types, start_date,
end_date)`: keep the entries whose form is in `form_types` and whose filing
date is inside the inclusive window (each bound only when given). -/
def parse_filings (feed : List FeedEntry) (formTypes : List String)
    (startDate endDate : Option DateYMD) : List FeedEntry :=
  feed.filter (fun e =>
    formTypes.contains e.form &&
    (match startDate with
      | none => true
      | some s => dateLe s e.filingDate) &&
    (match endDate with
      | none => true
      | some en => dateLe e.filingDate en))

/-- Contiguous-sublist test on character lists (Python's `in` on strings). -/
def substr_in (needle : List Char) : List Char → Bool
  | [] => needle.isEmpty
  | c :: rest => needle.isPrefixOf (c :: rest) || substr_in needle rest

/-- Python's `needle in haystack` substring containment. -/
def str_contains (needle haystack : String) : Bool :=
  substr_in needle.data haystack.data

/-- `BackfillJob.determine_fiscal_period(form_type, report_date)`: `'FY'`
when `'10-K' in form_type`; otherwise the quarter of the report date's
month, `'Q4'` when there is no report date. -/
def determine_fiscal_period (formType : String) (reportMonth : Option Nat) : String :=
  if str_contains "10-K" formType then "FY"
  else
    match reportMonth with
    | some m =>
        if m = 1 ∨ m = 2 ∨ m = 3 then "Q1"
        else if m = 4 ∨ m = 5 ∨ m = 6 then "Q2"
        else if m = 7 ∨ m = 8 ∨ m = 9 then "Q3"
        else "Q4"
    | none => "Q4"

/-- Zero-padded two-digit rendering, as `strftime('%d')`/`%m`. -/
def pad2 (n : Nat) : String :=
  if n < 10 then "0" ++ toString n else toString n

/-- `filing_date.strftime('%d-%m-%Y')`. -/
def date_ddmmyyyy (d : DateYMD) : String :=
  pad2 d.day ++ "-" ++ pad2 d.month ++ "-" ++ toString d.year

/-- `StorageService.construct_path` for `artifact_type='html'`:
`{exchange}/{ticker}/{year}/{ticker}_{year}_{period}_{DD-MM-YYYY}.html`. -/
def construct_html_path (exchange ticker : String) (fiscalYear : Nat)
    (fiscalPeriod filingDateStr : String) : String :=
  exchange ++ "/" ++ ticker ++ "/" ++ toString fiscalYear ++ "/" ++
    ticker ++ "_" ++ toString fiscalYear ++ "_" ++ fiscalPeriod ++ "_" ++
    filingDateStr ++ ".html"

/-- `SECAPIClient.construct_document_url(cik, accession, filename)`: dashes
stripped from the accession number, leading zeros stripped from the CIK,
then `{BASE_URL}/Archives/edgar/data/{cik}/{accession}/{filename}`. -/
def construct_document_url (cik accession filename : String) : String :=
  "https://www.sec.gov/Archives/edgar/data/" ++
    String.mk (cik.data.dropWhile (fun c => c = '0')) ++ "/" ++
    String.mk (accession.data.filter (fun c => c ≠ '-')) ++ "/" ++ filename

/-- The columns of a `companies` row that discovery reads. -/
structure Company where
  id : Nat
  ticker : String
  cik : String
  exchange : String
  deriving Repr, DecidableEq

/-- A row of the `filings` table as created by discovery. -/
structure Filing where
  id : Nat
  companyId : Nat
  accessionNumber : String
  formType : String
  filingDate : DateYMD
  reportMonth : Option Nat
  fiscalYear : Nat
  fiscalPeriod : String
  isAmendment : Bool
  primaryDocument : String
  deriving Repr, DecidableEq

/-- The slice of persisted state discovery touches, with the
auto-increment counters that stand for the database's id sequences. -/
structure DiscoveryDB where
  filings : List Filing
  artifacts : List Artifact
  nextFilingId : Nat
  nextArtifactId : Nat
  deriving Repr, DecidableEq

/-- Existence check of the loop body: `session.query(Filing).filter(
Filing.accession_number == ...)` — the session sees rows flushed earlier in
the same run. -/
def hasAccession (db : DiscoveryDB) (acc : String) : Bool :=
  db.filings.any (fun f => f.accessionNumber == acc)

/-- The per-entry body of the loop in `BackfillJob.process_company_filings`:
skip when a Filing with this accession number already exists; otherwise
insert the Filing (fiscal year from the filing date, fiscal period from the
form type and report date) together with its single pending HTML Artifact
(url from `construct_document_url`, local path from `construct_path`,
`status='pending_download'`, `retry_count=0`, `max_retries=3`), and count
one new filing. -/
def process_filing_entry (company : Company) (db : DiscoveryDB) (e : FeedEntry) :
    DiscoveryDB × Nat :=
  if hasAccession db e.accessionNumber then (db, 0)
  else
    let fiscalYear := e.filingDate.year
    let fiscalPeriod := determine_fiscal_period e.form e.reportMonth
    let filing : Filing := ⟨db.nextFilingId, company.id, e.accessionNumber, e.form,
      e.filingDate, e.reportMonth, fiscalYear, fiscalPeriod,
      e.form.endsWith "/A", e.primaryDocument⟩
    let htmlPath := construct_html_path company.exchange company.ticker fiscalYear
      fiscalPeriod (date_ddmmyyyy e.filingDate)
    let htmlUrl := construct_document_url company.cik e.accessionNumber e.primaryDocument
    let artifact : Artifact := ⟨db.nextArtifactId, filing.id, "html", e.primaryDocument,
      some htmlPath, htmlUrl, none, none, "pending_download", 0, 3, none⟩
    (⟨db.filings ++ [filing], db.artifacts ++ [artifact],
      db.nextFilingId + 1, db.nextArtifactId + 1⟩, 1)

/-- The loop of `process_company_filings` over the parsed entries,
accumulating the count of new filings. -/
def process_entries (company : Company) : DiscoveryDB → List FeedEntry → DiscoveryDB × Nat
  | db, [] => (db, 0)
  | db, e :: rest =>
    let r1 := process_filing_entry company db e
    let r2 := process_entries company r1.1 rest
    (r2.1, r1.2 + r2.2)

/-- `BackfillJob.process_company_filings(session, company, run_id)` on a
given submission feed: parse and filter the feed, then insert each new
entry, returning the updated state and the number of new filings. -/
def process_company_filings (company : Company) (db : DiscoveryDB)
    (feed : List FeedEntry) (formTypes : List String)
    (startDate endDate : Option DateYMD) : DiscoveryDB × Nat :=
  process_entries company db (parse_filings feed formTypes startDate endDate)

/-! ## The artifact retry lifecycle as a transition system
(`src/download_all_pending.py`, `src/jobs/incremental.py`,
`src/repair_failed_artifacts.py`, `src/services/downloader.py`) -/

/-- The per-artifact fields the retry bookkeeping reads and writes. -/
structure RetryState where
  status : String
  retryCount : Nat
  maxRetries : Nat
  deriving Repr, DecidableEq

/-- One event in an artifact's retry lifecycle, with the enabling guards the
drivers impose.  Download attempts happen on artifacts selected by
`download_all_pending`/`process_pending_downloads` (`status ==
'pending_download'`) or directly by `IncrementalUpdateJob.
retry_failed_artifacts` (`status == 'failed' AND retry_count <
max_retries`).  A failed attempt is `download_artifact`'s except branch:
`status = 'failed'`, `retry_count += 1`; a successful attempt commits
`'downloaded'` or `'skipped'` without touching the count.  A requeue is
`repair_failed_artifacts`' update (`status == 'failed' AND retry_count <
max_retry` with `max_retry = settings.artifact_retry_max =` the row's
ceiling): only the status changes.  Recording a scheduled retry time
(`schedule_retry`) leaves the artifact unchanged. -/
inductive RetryStep : RetryState → RetryState → Prop
  | attemptOkPending (s : RetryState) (final : String)
      (hs : s.status = "pending_download")
      (hf : final = "downloaded" ∨ final = "skipped") :
      RetryStep s ⟨final, s.retryCount, s.maxRetries⟩
  | attemptFailPending (s : RetryState) (hs : s.status = "pending_download") :
      RetryStep s ⟨"failed", s.retryCount + 1, s.maxRetries⟩
  | attemptOkRetry (s : RetryState) (final : String) (hs : s.status = "failed")
      (hc : s.retryCount < s.maxRetries)
      (hf : final = "downloaded" ∨ final = "skipped") :
      RetryStep s ⟨final, s.retryCount, s.maxRetries⟩
  | attemptFailRetry (s : RetryState) (hs : s.status = "failed")
      (hc : s.retryCount < s.maxRetries) :
      RetryStep s ⟨"failed", s.retryCount + 1, s.maxRetries⟩
  | requeue (s : RetryState) (hs : s.status = "failed")
      (hc : s.retryCount < s.maxRetries) :
      RetryStep s ⟨"pending_download", s.retryCount, s.maxRetries⟩
  | schedule (s : RetryState) : RetryStep s s

/-- The inductive invariant: the count never exceeds the ceiling, and a
pending artifact is strictly under it (it is either fresh, count 0 below a
positive ceiling, or was requeued under the `retry_count < max` guard). -/
def RetryInv (maxR : Nat) (s : RetryState) : Prop :=
  s.maxRetries = maxR ∧ s.retryCount ≤ s.maxRetries ∧
    (s.status = "pending_download" → s.retryCount < s.maxRetries)

/-! ## The download unit of work (`src/services/downloader.py`,
`ArtifactDownloader.download_artifact` and
`ArtifactDownloader.download_and_record_image`) -/

/-- The I/O collaborators of one download unit of work.
`fetch url` is the outcome of `httpx.get(url, ...).content` after
`raise_for_status` (`Except.error` = the raised exception's message);
`storeOk path content` is `storage_service.save_artifact`'s boolean;
`hash` is `sha256_bytes` (an abstract digest used only for equality);
`images html` is `extract_image_urls(html)` (which already catches its own
parse errors, degrading to `[]`); `pathFor a` is
`storage_service.construct_path` applied to the owning filing's and
company's fields, used only for an artifact whose `local_path` is NULL. -/
structure FetchEnv where
  fetch : String → Except String (List Nat)
  storeOk : String → List Nat → Bool
  hash : List Nat → String
  images : List Nat → List String
  pathFor : Artifact → String

/-- Replace the row with the updated artifact's id (the ORM mutation of
`artifact`'s attributes followed by `session.commit()`). -/
def updateArtifact (db : List Artifact) (a : Artifact) : List Artifact :=
  db.map (fun x => if x.id == a.id then a else x)

/-- `pre.data.isPrefixOf s.data`: Python's `s.startswith(pre)`. -/
def str_startsWith (pre s : String) : Bool :=
  pre.data.isPrefixOf s.data

/-- The path part of a URL, as `urllib.parse.urlparse(url).path`: the text
after `scheme://netloc`, cut at the query/fragment (URLs without
`../`-style games, as SEC document URLs are). -/
def split_scheme : List Char → Option (List Char)
  | [] => none
  | ':' :: '/' :: '/' :: rest => some rest
  | _ :: rest => split_scheme rest

def url_path (url : String) : String :=
  let cs := url.data
  let p := match split_scheme cs with
    | some rest => rest.dropWhile (fun c => c != '/')
    | none => cs
  String.mk (p.takeWhile (fun c => c != '?' && c != '#'))

/-- The final component of a path (`pathlib.Path(p).name`). -/
def last_component (cs : List Char) : List Char :=
  (cs.reverse.takeWhile (fun c => c != '/')).reverse

/-- `Path(urlparse(url).path).name`: the image's original file name. -/
def url_filename (url : String) : String :=
  String.mk (last_component (url_path url).data)

/-- The extension of a file name from its last dot (inclusive), `[]` when it
has no dot (`pathlib.Path.suffix`). -/
def last_dot_ext (cs : List Char) : List Char :=
  match cs.reverse.dropWhile (fun c => c != '.') with
  | [] => []
  | _ :: _ => '.' :: (cs.reverse.takeWhile (fun c => c != '.')).reverse

/-- `Path(url_path).suffix or '.png'` in `download_and_record_image`. -/
def image_ext (url : String) : String :=
  match last_dot_ext (url_filename url).data with
  | [] => ".png"
  | e => String.mk e

/-- `html_local_path.rsplit('.', 1)[0]`: the HTML document's local path
with its extension removed. -/
def html_path_base (p : String) : String :=
  String.mk (last_dot_base p.data)

/-- `f'{image_seq:03d}'`: zero-padded to at least three digits. -/
def pad3 (n : Nat) : String :=
  if n < 10 then "00" ++ toString n
  else if n < 100 then "0" ++ toString n
  else toString n

/-- The image local path constructed in `download_and_record_image`:
`f"{html_base}_image-{image_seq:03d}{ext}"`. -/
def image_local_path (htmlLocalPath : String) (imageSeq : Nat) (ext : String) : String :=
  html_path_base htmlLocalPath ++ "_image-" ++ pad3 imageSeq ++ ext

/-- `SEC_BASE_URL` in src/services/downloader.py. -/
def SEC_BASE_URL : String := "https://www.sec.gov"

/-- `urljoin(base, rel)` for a plain relative reference (no `../`/`./`
segments, as the pipeline's image references): the base up to its last
slash, then the reference. -/
def urljoin_simple (base rel : String) : String :=
  String.mk ((base.data.reverse.dropWhile (fun c => c != '/')).reverse) ++ rel

/-- URL resolution of the image loop in `download_artifact`: absolute URLs
pass through; root-relative ones resolve against the SEC origin; other
relative ones against the document's own URL. -/
def resolve_image_url (baseUrl imgUrl : String) : String :=
  if str_startsWith "http" imgUrl then imgUrl
  else if str_startsWith "/" imgUrl then SEC_BASE_URL ++ imgUrl
  else urljoin_simple baseUrl imgUrl

/-- Result of `download_and_record_image`: the updated artifacts table, the
created row if any, and the storage writes performed. -/
structure ImageResult where
  db : List Artifact
  created : Option Artifact
  writes : List (String × List Nat)
  deriving Repr, DecidableEq

/-- `ArtifactDownloader.download_and_record_image(session, filing,
image_url, image_seq, html_local_path)` with `newId` the id the database
would assign.  Idempotency check on `(filing_id, url)` first; then the
local path from the HTML path's base plus `_image-{seq:03d}{ext}` (`ext`
from the URL path, `.png` when absent); then the fetch; then content dedup
against any artifact with the same hash and status `'downloaded'` or
`'skipped'` (reuse its `local_path` and `file_size`, status `'skipped'`,
write nothing); otherwise save to storage and record `'downloaded'`.  Every
exception (fetch error, storage failure) is caught inside and yields no
row. -/
def download_and_record_image (env : FetchEnv) (db : List Artifact)
    (filingId : Nat) (imageUrl : String) (imageSeq : Nat)
    (htmlLocalPath : String) (newId : Nat) : ImageResult :=
  if db.any (fun a => a.filingId == filingId && a.url == imageUrl) then
    ⟨db, none, []⟩
  else
    let ext := image_ext imageUrl
    let localPath := image_local_path htmlLocalPath imageSeq ext
    match env.fetch imageUrl with
    | Except.error _ => ⟨db, none, []⟩
    | Except.ok content =>
      let h := env.hash content
      match db.find? (fun a => a.sha256 == some h &&
          (a.status == "downloaded" || a.status == "skipped")) with
      | some dup =>
          let a : Artifact := ⟨newId, filingId, "image", url_filename imageUrl,
            dup.localPath, imageUrl, dup.fileSize, some h, "skipped", 0, 3, none⟩
          ⟨db ++ [a], some a, []⟩
      | none =>
          if env.storeOk localPath content then
            let a : Artifact := ⟨newId, filingId, "image", url_filename imageUrl,
              some localPath, imageUrl, some content.length, some h, "downloaded", 0, 3, none⟩
            ⟨db ++ [a], some a, [(localPath, content)]⟩
          else ⟨db, none, []⟩

/-- Result of the image loop / of `download_artifact`. -/
structure ImagesResult where
  db : List Artifact
  created : List Artifact
  writes : List (String × List Nat)
  deriving Repr, DecidableEq

/-- The image loop of `download_artifact` (`for seq, img_url in
enumerate(image_urls, start=1)`): resolve each reference and run
`download_and_record_image`, threading the table; `seq` advances on every
reference, the fresh id only when a row was created. -/
def process_images (env : FetchEnv) (filingId : Nat) (baseUrl htmlPath : String) :
    List String → List Artifact → Nat → Nat → ImagesResult
  | [], db, _, _ => ⟨db, [], []⟩
  | u :: rest, db, nextId, seq =>
    let resolved := resolve_image_url baseUrl u
    let r := download_and_record_image env db filingId resolved seq htmlPath nextId
    match r.created with
    | some a =>
      let rr := process_images env filingId baseUrl htmlPath rest r.db (nextId + 1) (seq + 1)
      ⟨rr.db, a :: rr.created, r.writes ++ rr.writes⟩
    | none =>
      let rr := process_images env filingId baseUrl htmlPath rest r.db nextId (seq + 1)
      ⟨rr.db, rr.created, r.writes ++ rr.writes⟩

/-- Result of `download_artifact`: its boolean return value, the committed
table, and the storage writes performed. -/
structure DownloadResult where
  success : Bool
  db : List Artifact
  writes : List (String × List Nat)
  deriving Repr, DecidableEq

/-- The tail of `download_artifact` after the artifact has reached
`'downloaded'` or `'skipped'` (`art3`): flush the updated row, run the
image loop when it is an HTML artifact (for both `'downloaded'` and the
deduplicated `'skipped'` case), then commit and return success. -/
def download_artifact_commit (env : FetchEnv) (db1 : List Artifact)
    (art3 : Artifact) (content : List Nat) (nextId : Nat) : DownloadResult :=
  let db2 := updateArtifact db1 art3
  if art3.artifactType == "html" &&
      (art3.status == "downloaded" || art3.status == "skipped") then
    let r := process_images env art3.filingId art3.url
      (art3.localPath.getD "") (env.images content) db2 nextId 1
    ⟨true, r.db, r.writes⟩
  else ⟨true, db2, []⟩

/-- `ArtifactDownloader.download_artifact(session, artifact,
execution_run_id)` for the row with id `artId` (`nextId` seeds the ids of
any image rows).  Mark `'downloading'` and commit; fetch the content
(directly via `httpx.get`); hash it; dedup against another artifact with
the same hash and status `'downloaded'` (reuse its `local_path`, status
`'skipped'`, skip the write); otherwise derive the local path when NULL,
save to storage, status `'downloaded'`; then secondary image discovery for
HTML; on any exception commit status `'failed'`, `retry_count + 1` and the
error message (the `ErrorLog` row the except branch also inserts is not
modelled) and return failure. -/
def download_artifact (env : FetchEnv) (db : List Artifact)
    (artId nextId : Nat) : DownloadResult :=
  match db.find? (fun a => a.id == artId) with
  | none => ⟨false, db, []⟩
  | some art0 =>
    let art1 := { art0 with status := "downloading" }
    let db1 := updateArtifact db art1
    match env.fetch art1.url with
    | Except.error msg =>
        let aF := { art1 with
            status := "failed",
            retryCount := art1.retryCount + 1,
            errorMessage := some msg }
        ⟨false, updateArtifact db1 aF, []⟩
    | Except.ok content =>
      let h := env.hash content
      let art2 := { art1 with fileSize := some content.length, sha256 := some h }
      match db1.find? (fun a => a.sha256 == some h && a.status == "downloaded" &&
          a.id != art2.id) with
      | some existing =>
          download_artifact_commit env db1
            { art2 with localPath := existing.localPath, status := "skipped" }
            content nextId
      | none =>
          let lp := match art2.localPath with
            | some p => p
            | none => env.pathFor art2
          let art2b := { art2 with localPath := some lp }
          if env.storeOk lp content then
            let r := download_artifact_commit env db1
              { art2b with status := "downloaded" } content nextId
            ⟨r.success, r.db, (lp, content) :: r.writes⟩
          else
            let aF := { art2b with
                status := "failed",
                retryCount := art2b.retryCount + 1,
                errorMessage := some "Failed to save artifact to storage" }
            ⟨false, updateArtifact db1 aF, []⟩

/-- The concrete environment of C3's counterexample: fetching `u2` yields
bytes `[7]` hashing to `"H"`; storage succeeds; no embedded images. -/
def env_c3 : FetchEnv :=
  ⟨fun u => if u == "u2" then Except.ok [7] else Except.error "boom",
    fun _ _ => true,
    fun c => if c == [7] then "H" else "other",
    fun _ => [],
    fun _ => "unused"⟩

/-- The concrete table of C3's counterexample: artifact 1 holds hash `"H"`
in the terminal success state `'skipped'` (local path `p1.gif`); artifact 2
is pending and will fetch the same bytes. -/
def db_c3 : List Artifact :=
  [⟨1, 1, "image", "i.gif", some "p1.gif", "u1", some 1, some "H", "skipped", 0, 3, none⟩,
   ⟨2, 2, "xbrl_raw", "f.xml", some "p2.xml", "u2", none, none, "pending_download", 0, 3, none⟩]

/-- Environment for C6's witness: the network is down (every fetch raises a
transport error). -/
def env_c6 : FetchEnv :=
  ⟨fun _ => Except.error "connection reset",
    fun _ _ => true, fun _ => "h", fun _ => [], fun _ => "p"⟩

/-- Table for C6's witness: one sibling row (id 7) and the pending artifact
(id 5, `retry_count = 1`). -/
def db_c6 : List Artifact :=
  [⟨7, 3, "image", "i.gif", some "i.gif", "u7", some 2, some "hh", "downloaded", 0, 3, none⟩,
   ⟨5, 3, "html", "d.htm", some "x.html", "u5", none, none, "pending_download", 1, 3, none⟩]

/-- Environment for C6's counterexample: the HTML document itself (bytes
`[1]`) fetches fine, but the one embedded image reference it carries raises
a transport error when fetched. -/
def env_c6x : FetchEnv :=
  ⟨fun u =>
      if u == "https://www.sec.gov/a/doc.htm" then Except.ok [1]
      else Except.error "img boom",
    fun _ _ => true,
    fun _ => "HH",
    fun c => if c == [1] then ["i1.gif"] else [],
    fun _ => "unused"⟩

/-- Table for C6's counterexample: the single pending HTML artifact whose
secondary discovery will hit the failing image fetch. -/
def db_c6x : List Artifact :=
  [⟨1, 1, "html", "doc.htm", some "NYSE/X/2025/doc.html",
    "https://www.sec.gov/a/doc.htm", none, none, "pending_download", 0, 3, none⟩]

/-- Environment for C9's counterexample: the HTML document (bytes `[1]`)
embeds two image references whose fetched bytes are identical (`[7]`, hash
`"HI"`). -/
def env_c9 : FetchEnv :=
  ⟨fun u =>
      if u == "https://www.sec.gov/a/doc.htm" then Except.ok [1]
      else if u == "https://www.sec.gov/a/i1.gif" then Except.ok [7]
      else if u == "https://www.sec.gov/a/i2.gif" then Except.ok [7]
      else Except.error "boom",
    fun _ _ => true,
    fun c => if c == [1] then "HH" else "HI",
    fun c => if c == [1] then ["i1.gif", "i2.gif"] else [],
    fun _ => "unused"⟩

/-- The HTML artifact of C9's counterexample after its successful primary
download (status `'downloaded'`, the state in which secondary discovery
runs). -/
def html_art_c9 : Artifact :=
  ⟨1, 1, "html", "doc.htm", some "NYSE/X/2025/doc.html",
    "https://www.sec.gov/a/doc.htm", some 1, some "HH", "downloaded", 0, 3, none⟩

/-- Table for C3's witness: artifact 1 already holds hash `"H"` with status
`'downloaded'` at path `p1.gif`; artifact 2 will fetch the same bytes. -/
def db_c3w : List Artifact :=
  [⟨1, 1, "image", "i.gif", some "p1.gif", "u1", some 1, some "H", "downloaded", 0, 3, none⟩,
   ⟨2, 2, "xbrl_raw", "f.xml", some "p2.xml", "u2", none, none, "pending_download", 0, 3, none⟩]

/-- Environment for C9's witness: two images with distinct bytes and
hashes. -/
def env_c9w : FetchEnv :=
  ⟨fun u =>
      if u == "https://www.sec.gov/a/i1.gif" then Except.ok [7]
      else if u == "https://www.sec.gov/a/i2.gif" then Except.ok [8]
      else Except.error "boom",
    fun _ _ => true,
    fun c => if c == [7] then "HA" else "HB",
    fun _ => [],
    fun _ => "p"⟩

theorem waitStep_gap {R last t2 : ℚ} (h : WaitStep R last t2) :
    last + 1 / R ≤ t2 := by
  obtain ⟨now, hnow⟩ := h
  unfold sleep_time at hnow
  split_ifs at hnow with hc
  · linarith
  · push_neg at hc
    linarith

/-- Claim C1: for every configured rate `R` and every sequence of `N`
completed calls to the rate limiter's `wait()` (serialized by its lock),
consecutive recorded `last_request_time` values are separated by at least
`1/R` seconds; hence any `k+1` consecutive permitted calls span at least
`k/R` seconds (in particular the total elapsed time across the `N` calls is
at least `(N-1)/R`), and any run of consecutive permitted calls that fits
inside a window of one second has at most `R` calls. -/
theorem C1_rate_limiter_compliance (R : ℕ) (hR : 0 < R) (N : ℕ) (t : ℕ → ℚ)
    (h : ∀ n, n + 1 < N → WaitStep (R : ℚ) (t n) (t (n + 1))) :
    (∀ n, n + 1 < N → t n + 1 / (R : ℚ) ≤ t (n + 1)) ∧
    (∀ i k, i + k < N → t i + (k : ℚ) * (1 / (R : ℚ)) ≤ t (i + k)) ∧
    (∀ i k, i + k < N → t (i + k) - t i < 1 → k + 1 ≤ R) := by
  have hstep : ∀ n, n + 1 < N → t n + 1 / (R : ℚ) ≤ t (n + 1) := by
    intro n hn
    exact waitStep_gap (h n hn)
  have hgap : ∀ i k, i + k < N → t i + (k : ℚ) * (1 / (R : ℚ)) ≤ t (i + k) := by
    intro i k
    induction k with
    | zero => intro _; simp
    | succ m ih =>
        intro hik
        have h1 : i + m < N := by omega
        have h2 := ih (by omega)
        have h3 : t (i + m) + 1 / (R : ℚ) ≤ t (i + m + 1) := hstep (i + m) (by omega)
        have hgoal : t i + ((m : ℚ) + 1) * (1 / (R : ℚ)) ≤ t (i + m + 1) := by linarith
        have hc : ((m + 1 : ℕ) : ℚ) = (m : ℚ) + 1 := by push_cast; ring
        rw [← hc] at hgoal
        exact hgoal
  refine ⟨hstep, hgap, ?_⟩
  intro i k hik hwin
  have h1 := hgap i k hik
  have hRQ : (0 : ℚ) < (R : ℚ) := by exact_mod_cast hR
  have h2 : (k : ℚ) * (1 / (R : ℚ)) < 1 := by linarith
  have h3 : (k : ℚ) < (R : ℚ) := by
    rw [mul_one_div, div_lt_one hRQ] at h2
    exact h2
  have : k < R := by exact_mod_cast h3
  omega

/-- Witness for C1: the trace `t n = n` at rate `R = 2` satisfies the wait
relation, and the theorem yields the minimum spacing at the first step. -/
theorem C1_rate_limiter_compliance_witness :
    (fun n : ℕ => (n : ℚ)) 0 + 1 / ((2 : ℕ) : ℚ) ≤ (fun n : ℕ => (n : ℚ)) (0 + 1) := by
  refine (C1_rate_limiter_compliance 2 (by decide) 2 (fun n : ℕ => (n : ℚ)) ?_).1 0 (by decide)
  intro n hn
  have hn0 : n = 0 := by omega
  subst hn0
  refine ⟨0, ?_⟩
  norm_num [sleep_time]

/-- Claim C2 (evaluated at a failing input): the Download Executor's content
fetch for a concrete pending artifact issues its HTTP GET with no preceding
`rlWait` event — its trace is exactly one unguarded GET, and contains no
rate-limiter call — whereas the Remote Filing Client's `_make_request` (which
the claim says the fetch goes through) always emits `rlWait` immediately
before its GET.  The code therefore bypasses the global rate gate for
artifact-content requests. -/
theorem C2_download_fetch_bypasses_rate_limiter :
    download_artifact_fetch_trace "https://www.sec.gov/Archives/edgar/data/1/doc.htm" =
      [NetEvent.httpGet "https://www.sec.gov/Archives/edgar/data/1/doc.htm"] ∧
    NetEvent.rlWait ∉
      download_artifact_fetch_trace "https://www.sec.gov/Archives/edgar/data/1/doc.htm" ∧
    (∀ url, make_request_trace url = NetEvent.rlWait :: [NetEvent.httpGet url]) := by
  refine ⟨rfl, ?_, fun _ => rfl⟩
  simp [download_artifact_fetch_trace]

/-- Claim C7, counterexample: a submission-index fetch that keeps failing
with HTTP 404 — a non-transient, non-429 client error — is nevertheless
retried: the wrapper performs all 3 attempts (sleeping 10s then 20s) instead
of re-raising after the first attempt as the claim's "does not retry
non-transient 4xx" requires. -/
theorem C7_counterexample_404_is_retried :
    fetch_company_submissions_retry
        (fun _ => (Except.error (PyExc.httpStatusError 404) : Except PyExc Unit)) =
      (Except.error (PyExc.httpStatusError 404), 3, [10, 20]) ∧ (3 : Nat) ≠ 1 := by
  constructor
  · simp [fetch_company_submissions_retry, retry_with_backoff, retryLoop, isHttpError]
    norm_num
  · decide

theorem retryLoop_attempt_le (f : Nat → Except PyExc α) (retryOn : PyExc → Bool)
    (maxAttempts : Nat) (backoffFactor : ℚ) :
    ∀ fuel attempt delay sleeps, attempt + fuel = maxAttempts + 1 → 1 ≤ fuel →
      (retryLoop f retryOn maxAttempts backoffFactor fuel attempt delay sleeps).2.1 ≤
        maxAttempts := by
  intro fuel
  induction fuel with
  | zero => intro _ _ _ _ hf; omega
  | succ m ih =>
      intro attempt delay sleeps hinv _
      have hatt : attempt ≤ maxAttempts := by omega
      rw [retryLoop]
      cases hf : f attempt with
      | ok a => exact hatt
      | error e =>
          show (if retryOn e = false then (Except.error e, attempt, sleeps)
            else if attempt = maxAttempts then (Except.error e, attempt, sleeps)
            else retryLoop f retryOn maxAttempts backoffFactor m (attempt + 1)
              (delay * backoffFactor) (sleeps ++ [delay])).2.1 ≤ maxAttempts
          split_ifs with hr hm
          · exact hatt
          · exact hatt
          · exact ih (attempt + 1) (delay * backoffFactor) (sleeps ++ [delay])
              (by omega) (by omega)

/-- Claim C7 as amended and proved: the submission-index retry wrapper makes
at most 3 attempts in total; retryability is decided solely by
`isinstance(e, httpx.HTTPError)` with no discrimination among HTTP status
codes (404 is retried exactly like 429 or a timeout); when every attempt
fails with an `httpx.HTTPError`, it exits on attempt 3 re-raising the third
attempt's error, after sleeping 10s then 20s (exponential, base 10s, factor
2); an exception that is not an `httpx.HTTPError` propagates immediately
from attempt 1 with no sleep; and a first-attempt success returns at once. -/
theorem C7_submission_retry_policy (f : Nat → Except PyExc α) :
    ((fetch_company_submissions_retry f).2.1 ≤ 3) ∧
    ((∀ a, 1 ≤ a → a ≤ 3 → ∃ e, f a = Except.error e ∧ isHttpError e = true) →
      fetch_company_submissions_retry f = (f 3, 3, [10, 20])) ∧
    (∀ e, f 1 = Except.error e → isHttpError e = false →
      fetch_company_submissions_retry f = (Except.error e, 1, [])) ∧
    (∀ a, f 1 = Except.ok a →
      fetch_company_submissions_retry f = (Except.ok a, 1, [])) := by
  refine ⟨?_, ?_, ?_, ?_⟩
  · exact retryLoop_attempt_le f isHttpError 3 2 3 1 10 [] (by omega) (by omega)
  · intro hall
    obtain ⟨e1, he1, hr1⟩ := hall 1 (by omega) (by omega)
    obtain ⟨e2, he2, hr2⟩ := hall 2 (by omega) (by omega)
    obtain ⟨e3, he3, hr3⟩ := hall 3 (by omega) (by omega)
    rw [he3]
    simp [fetch_company_submissions_retry, retry_with_backoff, retryLoop,
      he1, hr1, he2, hr2, he3, hr3]
    norm_num
  · intro e he hr
    simp [fetch_company_submissions_retry, retry_with_backoff, retryLoop, he, hr]
  · intro a ha
    simp [fetch_company_submissions_retry, retry_with_backoff, retryLoop, ha]

/-- Witness for C7: at the always-404 fetch the wrapper exits on attempt 3,
which is within the proved bound of 3 attempts. -/
theorem C7_submission_retry_policy_witness :
    (fetch_company_submissions_retry
        (fun _ => (Except.error (PyExc.httpStatusError 404) : Except PyExc Unit))).2.1 ≤ 3 :=
  (C7_submission_retry_policy
      (fun _ => (Except.error (PyExc.httpStatusError 404) : Except PyExc Unit))).1

/-- Claim C10, counterexample: `save_artifact` CAN raise.  With a storage
root that already contains a regular file `a`, writing to `a/b.html` runs
`full_path.parent.mkdir(parents=True, exist_ok=True)` outside the `try`
block; `mkdir` raises (`a` exists and is not a directory) and the exception
propagates out of `write` instead of being converted into `False`. -/
theorem C10_counterexample_write_raises :
    save_artifact [(["a"], FsNode.file [0])] ["a", "b.html"] [1, 2] true true =
      Except.error "FileExistsError" := by
  rfl

theorem fsLookup_set_self (fs : Fs) (p : List String) (n : FsNode) :
    fsLookup (fsSet fs p n) p = some n := by
  induction fs with
  | nil => simp [fsSet, fsLookup]
  | cons e rest ih =>
      by_cases he : e.1 = p
      · simp [fsSet, fsLookup, he]
      · simp [fsSet, fsLookup, he, ih]

theorem fsLookup_set_ne (fs : Fs) (p q : List String) (n : FsNode) (h : q ≠ p) :
    fsLookup (fsSet fs p n) q = fsLookup fs q := by
  have hpq : ¬ p = q := fun hc => h hc.symm
  induction fs with
  | nil => simp [fsSet, fsLookup, hpq]
  | cons e rest ih =>
      by_cases he : e.1 = p
      · simp [fsSet, fsLookup, he, hpq, h]
      · by_cases heq : e.1 = q
        · simp [fsSet, fsLookup, he, heq, hpq, h]
        · simp [fsSet, fsLookup, he, heq, ih]

theorem fsLookup_remove_ne (fs : Fs) (p q : List String) (h : q ≠ p) :
    fsLookup (fsRemove fs p) q = fsLookup fs q := by
  have hpq : ¬ p = q := fun hc => h hc.symm
  induction fs with
  | nil => simp [fsRemove]
  | cons e rest ih =>
      by_cases he : e.1 = p
      · simp [fsRemove, fsLookup, he, hpq, h, ih]
      · by_cases heq : e.1 = q
        · simp [fsRemove, fsLookup, he, heq, hpq, h]
        · simp [fsRemove, fsLookup, he, heq, ih]

theorem mkdirOne_lookup_ne (fs fs1 : Fs) (p q : List String)
    (hok : mkdirOne fs p = Except.ok fs1) (h : q ≠ p) :
    fsLookup fs1 q = fsLookup fs q := by
  unfold mkdirOne at hok
  cases hl : fsLookup fs p with
  | none =>
      rw [hl] at hok
      cases hok
      exact fsLookup_set_ne fs p q FsNode.dir h
  | some node =>
      cases node with
      | file c => rw [hl] at hok; cases hok
      | dir => rw [hl] at hok; cases hok; rfl

theorem mem_pathPrefixes_length (p : List String) :
    ∀ r ∈ pathPrefixes p, r.length ≤ p.length := by
  induction p with
  | nil => intro r hr; cases hr
  | cons x xs ih =>
      intro r hr
      rw [pathPrefixes] at hr
      rcases List.mem_cons.mp hr with h1 | h2
      · subst h1; simp
      · obtain ⟨s, hs, rfl⟩ := List.mem_map.mp h2
        have := ih s hs
        simp only [List.length_cons]
        omega

theorem foldlM_mkdirOne_lookup (q : List String) :
    ∀ (l : List (List String)) (fs fs1 : Fs), (∀ r ∈ l, r ≠ q) →
      l.foldlM mkdirOne fs = Except.ok fs1 → fsLookup fs1 q = fsLookup fs q := by
  intro l
  induction l with
  | nil =>
      intro fs fs1 _ hok
      cases hok
      rfl
  | cons r rest ih =>
      intro fs fs1 hne hok
      rw [List.foldlM_cons] at hok
      cases hstep : mkdirOne fs r with
      | error e => rw [hstep] at hok; cases hok
      | ok fs' =>
          rw [hstep] at hok
          have h1 : fsLookup fs' q = fsLookup fs q :=
            mkdirOne_lookup_ne fs fs' r q hstep
              (fun hc => hne r (List.mem_cons_self r rest) hc.symm)
          have h2 := ih fs' fs1 (fun s hs => hne s (List.mem_cons_of_mem r hs)) hok
          rw [h2, h1]

theorem mkdir_parents_lookup_longer (fs fs1 : Fs) (p q : List String)
    (hok : mkdir_parents fs p = Except.ok fs1) (hlen : p.length < q.length) :
    fsLookup fs1 q = fsLookup fs q := by
  refine foldlM_mkdirOne_lookup q (pathPrefixes p) fs fs1 ?_ hok
  intro r hr hrq
  have := mem_pathPrefixes_length p r hr
  rw [hrq] at this
  omega

/-- Claim C10 as amended and proved: provided the `mkdir` call that runs
before the `try` block succeeds (no ancestor of the destination exists as a
regular file), `save_artifact` never raises; it returns `True` with the
destination holding exactly the written content, or `False` with the
destination's previous content (or absence) unchanged — and in every case
the destination's final state is either its old mapping or the complete new
content, never a partial write (the bytes go to the sibling
`.with_suffix('.tmp')` file, which is then atomically renamed).  The
`hname` hypothesis records that the destination's file name is not itself a
`.tmp` name, so the temporary is a distinct sibling. -/
theorem C10_storage_write_atomic (fs : Fs) (pre : List String) (name : String)
    (content : List Nat) (writeOk replaceOk : Bool) (fs1 : Fs)
    (hmk : mkdir_parents fs pre = Except.ok fs1)
    (hname : path_stem name ++ ".tmp" ≠ name) :
    ∃ ok fs', save_artifact fs (pre ++ [name]) content writeOk replaceOk =
        Except.ok (ok, fs') ∧
      (ok = true → fsLookup fs' (pre ++ [name]) = some (FsNode.file content)) ∧
      (ok = false → fsLookup fs' (pre ++ [name]) = fsLookup fs (pre ++ [name])) ∧
      (fsLookup fs' (pre ++ [name]) = fsLookup fs (pre ++ [name]) ∨
        fsLookup fs' (pre ++ [name]) = some (FsNode.file content)) := by
  have hdrop : (pre ++ [name]).dropLast = pre := List.dropLast_concat
  have hlast : (pre ++ [name]).getLast? = some name := List.getLast?_concat pre
  have hmk' : fsLookup fs1 (pre ++ [name]) = fsLookup fs (pre ++ [name]) :=
    mkdir_parents_lookup_longer fs fs1 pre (pre ++ [name]) hmk (by simp)
  have htmp : pre ++ [path_stem name ++ ".tmp"] ≠ pre ++ [name] := by
    intro hc
    exact hname (by simpa using hc)
  unfold save_artifact LocalFileSystemAdapter.write
  rw [hdrop, hmk, hlast]
  cases writeOk with
  | false =>
      refine ⟨false, fs1, rfl, by simp, fun _ => hmk', Or.inl hmk'⟩
  | true =>
      cases replaceOk with
      | false =>
          refine ⟨false, fsSet fs1 (pre ++ [path_stem name ++ ".tmp"])
            (FsNode.file content), rfl, by simp, fun _ => ?_, ?_⟩
          · rw [fsLookup_set_ne _ _ _ _ (fun hc => htmp hc.symm)]
            exact hmk'
          · left
            rw [fsLookup_set_ne _ _ _ _ (fun hc => htmp hc.symm)]
            exact hmk'
      | true =>
          refine ⟨true, _, rfl, fun _ => ?_, by simp, Or.inr ?_⟩
          · exact fsLookup_set_self _ _ _
          · exact fsLookup_set_self _ _ _

/-- Witness for C10's amended theorem: writing `x/b.html` into an empty
storage root succeeds and the destination holds the written bytes. -/
theorem C10_storage_write_atomic_witness :
    ∃ ok fs', save_artifact ([] : Fs) (["x"] ++ ["b.html"]) [1, 2] true true =
        Except.ok (ok, fs') ∧
      (ok = true → fsLookup fs' (["x"] ++ ["b.html"]) = some (FsNode.file [1, 2])) ∧
      (ok = false → fsLookup fs' (["x"] ++ ["b.html"]) = fsLookup ([] : Fs) (["x"] ++ ["b.html"])) ∧
      (fsLookup fs' (["x"] ++ ["b.html"]) = fsLookup ([] : Fs) (["x"] ++ ["b.html"]) ∨
        fsLookup fs' (["x"] ++ ["b.html"]) = some (FsNode.file [1, 2])) :=
  C10_storage_write_atomic [] ["x"] "b.html" [1, 2] true true [(["x"], FsNode.dir)]
    (by rfl) (by decide)

/-- Claim C8: the Retry Scheduler's requeue touches only the status field.
For every row of the database, `repair_failed_artifacts` leaves every field
except `status` unchanged — in particular `retry_count` — and rewrites
`status` to `'pending_download'` exactly for the eligible rows (`failed`
with `retry_count` below the ceiling); and recording a scheduled retry time
(`schedule_retry`) leaves the artifacts table entirely unchanged. -/
theorem C8_requeue_changes_only_status (maxRetry : Nat) (db : List Artifact)
    (i : Nat) (hi : i < db.length) :
    ∃ hi2 : i < (repair_failed_artifacts maxRetry db).1.length,
      (((repair_failed_artifacts maxRetry db).1.get ⟨i, hi2⟩).id = (db.get ⟨i, hi⟩).id ∧
        ((repair_failed_artifacts maxRetry db).1.get ⟨i, hi2⟩).filingId = (db.get ⟨i, hi⟩).filingId ∧
        ((repair_failed_artifacts maxRetry db).1.get ⟨i, hi2⟩).artifactType = (db.get ⟨i, hi⟩).artifactType ∧
        ((repair_failed_artifacts maxRetry db).1.get ⟨i, hi2⟩).filename = (db.get ⟨i, hi⟩).filename ∧
        ((repair_failed_artifacts maxRetry db).1.get ⟨i, hi2⟩).localPath = (db.get ⟨i, hi⟩).localPath ∧
        ((repair_failed_artifacts maxRetry db).1.get ⟨i, hi2⟩).url = (db.get ⟨i, hi⟩).url ∧
        ((repair_failed_artifacts maxRetry db).1.get ⟨i, hi2⟩).fileSize = (db.get ⟨i, hi⟩).fileSize ∧
        ((repair_failed_artifacts maxRetry db).1.get ⟨i, hi2⟩).sha256 = (db.get ⟨i, hi⟩).sha256 ∧
        ((repair_failed_artifacts maxRetry db).1.get ⟨i, hi2⟩).retryCount = (db.get ⟨i, hi⟩).retryCount ∧
        ((repair_failed_artifacts maxRetry db).1.get ⟨i, hi2⟩).maxRetries = (db.get ⟨i, hi⟩).maxRetries ∧
        ((repair_failed_artifacts maxRetry db).1.get ⟨i, hi2⟩).errorMessage = (db.get ⟨i, hi⟩).errorMessage) ∧
      ((repair_failed_artifacts maxRetry db).1.get ⟨i, hi2⟩).status =
        (if repairEligible maxRetry (db.get ⟨i, hi⟩) then "pending_download"
          else (db.get ⟨i, hi⟩).status) ∧
      (∀ queue artifactId now retryCount,
        (schedule_retry db queue artifactId now retryCount).1 = db) := by
  have hlen : (repair_failed_artifacts maxRetry db).1.length = db.length := by
    simp [repair_failed_artifacts]
  refine ⟨by omega, ?_, ?_, ?_⟩
  · have hget : (repair_failed_artifacts maxRetry db).1.get ⟨i, by omega⟩ =
        (if repairEligible maxRetry (db.get ⟨i, hi⟩) then
          { db.get ⟨i, hi⟩ with status := "pending_download" } else db.get ⟨i, hi⟩) := by
      simp [repair_failed_artifacts, List.getElem_map]
    rw [hget]
    split_ifs with helig
    · exact ⟨rfl, rfl, rfl, rfl, rfl, rfl, rfl, rfl, rfl, rfl, rfl⟩
    · exact ⟨rfl, rfl, rfl, rfl, rfl, rfl, rfl, rfl, rfl, rfl, rfl⟩
  · have hget : (repair_failed_artifacts maxRetry db).1.get ⟨i, by omega⟩ =
        (if repairEligible maxRetry (db.get ⟨i, hi⟩) then
          { db.get ⟨i, hi⟩ with status := "pending_download" } else db.get ⟨i, hi⟩) := by
      simp [repair_failed_artifacts, List.getElem_map]
    rw [hget]
    split_ifs with helig
    · rfl
    · rfl
  · intro queue artifactId now retryCount
    unfold schedule_retry
    by_cases hq : queue.any (fun e => e.1 == artifactId)
    · simp [hq]
    · simp [hq]

/-- Witness for C8: a database with a single failed artifact below its
ceiling; the sweep requeues it to `'pending_download'` and leaves its
`retry_count` (1) untouched. -/
theorem C8_requeue_changes_only_status_witness :
    ∃ hi2 : 0 < (repair_failed_artifacts 3
        [⟨1, 1, "html", "doc.htm", some "p", "u", none, none, "failed", 1, 3, some "err"⟩]).1.length,
      (((repair_failed_artifacts 3
          [⟨1, 1, "html", "doc.htm", some "p", "u", none, none, "failed", 1, 3, some "err"⟩]).1.get
            ⟨0, hi2⟩).retryCount =
        (([⟨1, 1, "html", "doc.htm", some "p", "u", none, none, "failed", 1, 3, some "err"⟩] :
            List Artifact).get ⟨0, by decide⟩).retryCount) := by
  obtain ⟨hi2, hfields, _, _⟩ := C8_requeue_changes_only_status 3
    [⟨1, 1, "html", "doc.htm", some "p", "u", none, none, "failed", 1, 3, some "err"⟩]
    0 (by decide)
  exact ⟨hi2, hfields.2.2.2.2.2.2.2.2.1⟩

theorem hasAccession_entry_mono (company : Company) (db : DiscoveryDB)
    (e : FeedEntry) (acc : String) (h : hasAccession db acc = true) :
    hasAccession (process_filing_entry company db e).1 acc = true := by
  unfold process_filing_entry
  by_cases he : hasAccession db e.accessionNumber
  · simp [he, h]
  · simp only [he, Bool.false_eq_true, if_neg, ite_false]
    unfold hasAccession at h ⊢
    simp only [List.any_append]
    simp [h]

theorem hasAccession_entry_self (company : Company) (db : DiscoveryDB) (e : FeedEntry) :
    hasAccession (process_filing_entry company db e).1 e.accessionNumber = true := by
  unfold process_filing_entry
  by_cases he : hasAccession db e.accessionNumber
  · simp [he]
  · simp only [he, Bool.false_eq_true, if_neg, ite_false]
    unfold hasAccession
    simp [List.any_append]

theorem hasAccession_entries_mono (company : Company) (acc : String) :
    ∀ (l : List FeedEntry) (db : DiscoveryDB), hasAccession db acc = true →
      hasAccession (process_entries company db l).1 acc = true := by
  intro l
  induction l with
  | nil => intro db h; exact h
  | cons e rest ih =>
      intro db h
      unfold process_entries
      exact ih _ (hasAccession_entry_mono company db e acc h)

theorem hasAccession_entries_all (company : Company) :
    ∀ (l : List FeedEntry) (db : DiscoveryDB) (e : FeedEntry), e ∈ l →
      hasAccession (process_entries company db l).1 e.accessionNumber = true := by
  intro l
  induction l with
  | nil => intro db e he; cases he
  | cons e0 rest ih =>
      intro db e he
      rcases List.mem_cons.mp he with h1 | h2
      · subst h1
        unfold process_entries
        exact hasAccession_entries_mono company e.accessionNumber rest _
          (hasAccession_entry_self company db e)
      · unfold process_entries
        exact ih _ e h2

theorem process_entries_noop (company : Company) :
    ∀ (l : List FeedEntry) (db : DiscoveryDB),
      (∀ e ∈ l, hasAccession db e.accessionNumber = true) →
      process_entries company db l = (db, 0) := by
  intro l
  induction l with
  | nil => intro db _; rfl
  | cons e rest ih =>
      intro db hall
      have he : hasAccession db e.accessionNumber = true :=
        hall e (List.mem_cons_self e rest)
      have hstep : process_filing_entry company db e = (db, 0) := by
        unfold process_filing_entry
        simp [he]
      unfold process_entries
      rw [hstep]
      have := ih db (fun x hx => hall x (List.mem_cons_of_mem e hx))
      simp [this]

/-- Claim C5: discovery is idempotent.  An entry whose accession number
already exists as a Filing is skipped outright, and running
`process_company_filings` a second time over the same company, form-type
set and date window leaves the Filing and Artifact tables (and the id
sequences) exactly as the first run left them, reporting zero new
filings. -/
theorem C5_discovery_idempotent (company : Company) (db : DiscoveryDB)
    (feed : List FeedEntry) (formTypes : List String)
    (startDate endDate : Option DateYMD) :
    (∀ db2 e, hasAccession db2 e.accessionNumber = true →
      process_filing_entry company db2 e = (db2, 0)) ∧
    process_company_filings company
        (process_company_filings company db feed formTypes startDate endDate).1
        feed formTypes startDate endDate =
      ((process_company_filings company db feed formTypes startDate endDate).1, 0) := by
  constructor
  · intro db2 e he
    unfold process_filing_entry
    simp [he]
  · unfold process_company_filings
    apply process_entries_noop
    intro e he
    exact hasAccession_entries_all company _ db e he

/-- Witness for C5: a concrete second run over a one-company, two-entry
feed (one 10-K inside the 2023–2025 window, one 8-K filtered out) creates
nothing and changes nothing. -/
theorem C5_discovery_idempotent_witness :
    process_company_filings ⟨1, "AAPL", "0000320193", "NASDAQ"⟩
        (process_company_filings ⟨1, "AAPL", "0000320193", "NASDAQ"⟩
          ⟨[], [], 1, 1⟩
          [⟨"0000320193-23-000106", "10-K", ⟨2023, 11, 3⟩, some 9, "aapl-20230930.htm"⟩,
            ⟨"0000320193-23-000077", "8-K", ⟨2023, 8, 3⟩, some 7, "aapl-8k.htm"⟩]
          ["10-K", "10-K/A", "10-Q", "10-Q/A"]
          (some ⟨2023, 1, 1⟩) (some ⟨2025, 12, 31⟩)).1
        [⟨"0000320193-23-000106", "10-K", ⟨2023, 11, 3⟩, some 9, "aapl-20230930.htm"⟩,
          ⟨"0000320193-23-000077", "8-K", ⟨2023, 8, 3⟩, some 7, "aapl-8k.htm"⟩]
        ["10-K", "10-K/A", "10-Q", "10-Q/A"]
        (some ⟨2023, 1, 1⟩) (some ⟨2025, 12, 31⟩) =
      ((process_company_filings ⟨1, "AAPL", "0000320193", "NASDAQ"⟩
          ⟨[], [], 1, 1⟩
          [⟨"0000320193-23-000106", "10-K", ⟨2023, 11, 3⟩, some 9, "aapl-20230930.htm"⟩,
            ⟨"0000320193-23-000077", "8-K", ⟨2023, 8, 3⟩, some 7, "aapl-8k.htm"⟩]
          ["10-K", "10-K/A", "10-Q", "10-Q/A"]
          (some ⟨2023, 1, 1⟩) (some ⟨2025, 12, 31⟩)).1, 0) :=
  (C5_discovery_idempotent ⟨1, "AAPL", "0000320193", "NASDAQ"⟩ ⟨[], [], 1, 1⟩
      [⟨"0000320193-23-000106", "10-K", ⟨2023, 11, 3⟩, some 9, "aapl-20230930.htm"⟩,
        ⟨"0000320193-23-000077", "8-K", ⟨2023, 8, 3⟩, some 7, "aapl-8k.htm"⟩]
      ["10-K", "10-K/A", "10-Q", "10-Q/A"]
      (some ⟨2023, 1, 1⟩) (some ⟨2025, 12, 31⟩)).2

theorem retryStep_preserves_inv (maxR : Nat) (s s' : RetryState)
    (hstep : RetryStep s s') (hinv : RetryInv maxR s) : RetryInv maxR s' := by
  obtain ⟨hm, hle, hpend⟩ := hinv
  cases hstep with
  | attemptOkPending final hs hf =>
      refine ⟨hm, hle, ?_⟩
      intro hfinal
      dsimp only at hfinal
      rcases hf with h | h <;> rw [h] at hfinal <;> simp at hfinal
  | attemptFailPending hs =>
      have hlt := hpend hs
      refine ⟨hm, ?_, ?_⟩
      · dsimp only
        omega
      · intro hc
        dsimp only at hc
        simp at hc
  | attemptOkRetry final hs hc hf =>
      refine ⟨hm, hle, ?_⟩
      intro hfinal
      dsimp only at hfinal
      rcases hf with h | h <;> rw [h] at hfinal <;> simp at hfinal
  | attemptFailRetry hs hc =>
      refine ⟨hm, ?_, ?_⟩
      · dsimp only
        omega
      · intro hc2
        dsimp only at hc2
        simp at hc2
  | requeue hs hc =>
      exact ⟨hm, hle, fun _ => hc⟩
  | schedule =>
      exact ⟨hm, hle, hpend⟩

/-- Claim C4: along every interleaving of download attempts and retry
sweeps starting from a freshly created artifact (`'pending_download'`,
`retry_count = 0`, positive ceiling `maxR` — every Artifact the pipeline
creates has the column default `max_retries = 3`), the retry count never
exceeds the ceiling; and a failed artifact whose count has reached the
ceiling is terminal: no enabled event moves it — further sweeps neither
requeue it to pending nor increment its count (only the no-op scheduling
event applies, and it changes nothing). -/
theorem C4_retry_bound_and_terminal (maxR : Nat) (hmax : 1 ≤ maxR)
    (s : RetryState)
    (hreach : Relation.ReflTransGen RetryStep ⟨"pending_download", 0, maxR⟩ s) :
    (s.maxRetries = maxR ∧ s.retryCount ≤ maxR) ∧
    (∀ u u' : RetryState, u.status = "failed" → u.retryCount = u.maxRetries →
      RetryStep u u' → u' = u) := by
  constructor
  · have hinv : RetryInv maxR s := by
      induction hreach with
      | refl => exact ⟨rfl, by dsimp only; omega, fun _ => by dsimp only; omega⟩
      | tail hr hstep ih => exact retryStep_preserves_inv maxR _ _ hstep ih
    obtain ⟨hm, hle, _⟩ := hinv
    exact ⟨hm, hm ▸ hle⟩
  · intro u u' hfailed hceil hstep
    cases hstep with
    | attemptOkPending final hs hf => rw [hfailed] at hs; exact absurd hs (by decide)
    | attemptFailPending hs => rw [hfailed] at hs; exact absurd hs (by decide)
    | attemptOkRetry final hs hc hf => omega
    | attemptFailRetry hs hc => omega
    | requeue hs hc => omega
    | schedule => rfl

/-- Witness for C4: the initial state itself (ceiling 3) is reachable, and
the theorem gives its count bound. -/
theorem C4_retry_bound_and_terminal_witness :
    ((⟨"pending_download", 0, 3⟩ : RetryState).maxRetries = 3 ∧
      (⟨"pending_download", 0, 3⟩ : RetryState).retryCount ≤ 3) ∧
    (∀ u u' : RetryState, u.status = "failed" → u.retryCount = u.maxRetries →
      RetryStep u u' → u' = u) :=
  C4_retry_bound_and_terminal 3 (by decide) ⟨"pending_download", 0, 3⟩
    Relation.ReflTransGen.refl

theorem mem_updateArtifact_of_ne (db : List Artifact) (a b : Artifact)
    (hb : b ∈ db) (hne : b.id ≠ a.id) : b ∈ updateArtifact db a := by
  unfold updateArtifact
  have : (if b.id == a.id then a else b) = b := by
    rw [if_neg]
    simp [hne]
  rw [← this]
  exact List.mem_map_of_mem _ hb

theorem find?_updateArtifact_self (a : Artifact) (tid : Nat) (hid : a.id = tid) :
    ∀ db : List Artifact, (∃ x ∈ db, x.id = tid) →
      (updateArtifact db a).find? (fun x => x.id == tid) = some a := by
  intro db
  induction db with
  | nil => intro h; obtain ⟨x, hx, _⟩ := h; cases hx
  | cons e rest ih =>
      intro h
      unfold updateArtifact at ih ⊢
      by_cases he : e.id == a.id
      · simp only [List.map_cons, he, if_true]
        rw [List.find?_cons_of_pos]
        simp [hid]
      · simp only [List.map_cons, he, if_false, Bool.false_eq_true, ite_false]
        rw [List.find?_cons_of_neg]
        · apply ih
          obtain ⟨x, hx, hxid⟩ := h
          rcases List.mem_cons.mp hx with h1 | h2
          · exfalso
            subst h1
            rw [hxid, ← hid] at he
            simp at he
          · exact ⟨x, h2, hxid⟩
        · simp only [beq_iff_eq] at he ⊢
          rw [← hid] at *
          exact fun hc => he hc

theorem exists_id_updateArtifact (db : List Artifact) (a : Artifact) (tid : Nat)
    (ha : a.id = tid) (h : ∃ x ∈ db, x.id = tid) :
    ∃ x ∈ updateArtifact db a, x.id = tid := by
  obtain ⟨x, hx, hxid⟩ := h
  by_cases hxa : x.id == a.id
  · refine ⟨a, ?_, ha⟩
    unfold updateArtifact
    exact List.mem_map.mpr ⟨x, hx, by simp [hxa]⟩
  · refine ⟨x, ?_, hxid⟩
    apply mem_updateArtifact_of_ne db a x hx
    simpa using hxa

theorem download_artifact_commit_success (env : FetchEnv) (db1 : List Artifact)
    (art3 : Artifact) (content : List Nat) (nextId : Nat) :
    (download_artifact_commit env db1 art3 content nextId).success = true := by
  unfold download_artifact_commit
  split_ifs <;> rfl

/-- Claim C3, counterexample: `download_artifact`'s dedup query matches only
`status == 'downloaded'`, not the terminal success state `'skipped'`.
Artifact 2 fetches bytes whose hash `"H"` is already held by artifact 1
(status `'skipped'`) — yet it is committed `'downloaded'` (not `'skipped'`),
keeps its own local path `p2.xml` (not `p1.gif`), and the unit of work
physically writes the bytes: two artifacts now share a hash but not a
storage path, and both have written. -/
theorem C3_counterexample_skipped_hash_not_deduped :
    download_artifact env_c3 db_c3 2 100 =
      ⟨true,
        [⟨1, 1, "image", "i.gif", some "p1.gif", "u1", some 1, some "H", "skipped", 0, 3, none⟩,
         ⟨2, 2, "xbrl_raw", "f.xml", some "p2.xml", "u2", some 1, some "H", "downloaded", 0, 3, none⟩],
        [("p2.xml", [7])]⟩ ∧
    (some "p2.xml" : Option String) ≠ some "p1.gif" ∧
    ("downloaded" : String) ≠ "skipped" := by
  refine ⟨by decide, by decide, by decide⟩

theorem failed_commit_props (db : List Artifact) (art1 aF : Artifact) (artId : Nat)
    (h1 : art1.id = artId) (hF : aF.id = artId) (hmem : ∃ x ∈ db, x.id = artId) :
    (updateArtifact (updateArtifact db art1) aF).find? (fun x => x.id == artId) = some aF ∧
    ∀ b ∈ db, b.id ≠ artId → b ∈ updateArtifact (updateArtifact db art1) aF := by
  constructor
  · exact find?_updateArtifact_self aF artId hF _
      (exists_id_updateArtifact db art1 artId h1 hmem)
  · intro b hb hbne
    refine mem_updateArtifact_of_ne _ aF b ?_ (by rw [hF]; exact hbne)
    exact mem_updateArtifact_of_ne db art1 b hb (by rw [h1]; exact hbne)

/-- Claim C6, counterexample: an exception raised inside the
secondary-discovery step is NOT converted into a `'failed'` commit.  The
HTML artifact's own download succeeds, its single embedded image's fetch
raises (`env_c6x` returns an error for the image URL — second conjunct),
and the exception is swallowed inside `download_and_record_image`: the
artifact is committed `'downloaded'` (not `'failed'`), `retry_count` stays
0 (not incremented), no error message is recorded, and `download_artifact`
returns `True` (not `False`), contradicting the claimed consequences. -/
theorem C6_counterexample_image_exception_swallowed :
    download_artifact env_c6x db_c6x 1 10 =
      ⟨true,
        [⟨1, 1, "html", "doc.htm", some "NYSE/X/2025/doc.html",
          "https://www.sec.gov/a/doc.htm", some 1, some "HH", "downloaded", 0, 3, none⟩],
        [("NYSE/X/2025/doc.html", [1])]⟩ ∧
    env_c6x.fetch (resolve_image_url "https://www.sec.gov/a/doc.htm" "i1.gif") =
      Except.error "img boom" ∧
    (true : Bool) ≠ false ∧ ("downloaded" : String) ≠ "failed" := by
  refine ⟨by decide, by rfl, by decide, by decide⟩

/-- Claim C6 as amended and proved: an exception in the artifact's OWN
fetch or store step is caught within the unit of work — the artifact is
committed `'failed'` with `retry_count` incremented by exactly one and the
raised error's message recorded, nothing is written, every sibling row is
still present, and `download_artifact` returns `False` instead of
propagating (the model's total return type is the except-branch's
`return False`).  An exception inside secondary discovery, however, is
caught one level deeper (`download_and_record_image` returns `None`) and
does not fail the unit of work: when the primary fetch, dedup check and
store succeed, the function returns `True` with no assumption whatsoever
on the image fetches or image writes — see the counterexample against the
original claim. -/
theorem C6_failure_handling (env : FetchEnv) (db : List Artifact)
    (artId nextId : Nat) (art0 : Artifact)
    (hfind : db.find? (fun a => a.id == artId) = some art0) :
    (∀ msg, env.fetch art0.url = Except.error msg →
      (download_artifact env db artId nextId).success = false ∧
      (download_artifact env db artId nextId).writes = [] ∧
      (∃ a', (download_artifact env db artId nextId).db.find? (fun a => a.id == artId) =
          some a' ∧
        a'.status = "failed" ∧ a'.retryCount = art0.retryCount + 1 ∧
        a'.errorMessage = some msg) ∧
      (∀ b ∈ db, b.id ≠ artId → b ∈ (download_artifact env db artId nextId).db)) ∧
    (∀ content, env.fetch art0.url = Except.ok content →
      (updateArtifact db { art0 with status := "downloading" }).find?
        (fun a => a.sha256 == some (env.hash content) && a.status == "downloaded" &&
          a.id != art0.id) = none →
      env.storeOk (match art0.localPath with
        | some p => p
        | none => env.pathFor { art0 with
            status := "downloading",
            fileSize := some content.length,
            sha256 := some (env.hash content) }) content = false →
      (download_artifact env db artId nextId).success = false ∧
      (download_artifact env db artId nextId).writes = [] ∧
      (∃ a', (download_artifact env db artId nextId).db.find? (fun a => a.id == artId) =
          some a' ∧
        a'.status = "failed" ∧ a'.retryCount = art0.retryCount + 1 ∧
        a'.errorMessage = some "Failed to save artifact to storage") ∧
      (∀ b ∈ db, b.id ≠ artId → b ∈ (download_artifact env db artId nextId).db)) ∧
    (∀ content, env.fetch art0.url = Except.ok content →
      (updateArtifact db { art0 with status := "downloading" }).find?
        (fun a => a.sha256 == some (env.hash content) && a.status == "downloaded" &&
          a.id != art0.id) = none →
      env.storeOk (match art0.localPath with
        | some p => p
        | none => env.pathFor { art0 with
            status := "downloading",
            fileSize := some content.length,
            sha256 := some (env.hash content) }) content = true →
      (download_artifact env db artId nextId).success = true) := by
  have hid : art0.id = artId := by
    have := List.find?_some hfind
    simpa using this
  have hmem0 : ∃ x ∈ db, x.id = artId := ⟨art0, List.mem_of_find?_eq_some hfind, hid⟩
  refine ⟨?_, ?_, ?_⟩
  · intro msg hmsg
    simp only [download_artifact, hfind, hmsg]
    obtain ⟨hfindF, hsib⟩ := failed_commit_props db
      { art0 with status := "downloading" }
      { art0 with
          status := "failed",
          retryCount := art0.retryCount + 1,
          errorMessage := some msg }
      artId hid hid hmem0
    refine ⟨?_, ?_, ⟨_, hfindF, ?_, ?_, ?_⟩, hsib⟩ <;> simp
  · intro content hfc hdup hsf
    simp only [download_artifact, hfind, hfc, hdup, hsf]
    obtain ⟨hfindF, hsib⟩ := failed_commit_props db
      { art0 with status := "downloading" }
      { art0 with
          localPath := some (match art0.localPath with
            | some p => p
            | none => env.pathFor { art0 with
                status := "downloading",
                fileSize := some content.length,
                sha256 := some (env.hash content) }),
          fileSize := some content.length,
          sha256 := some (env.hash content),
          status := "failed",
          retryCount := art0.retryCount + 1,
          errorMessage := some "Failed to save artifact to storage" }
      artId hid hid hmem0
    refine ⟨?_, ?_, ⟨_, hfindF, ?_, ?_, ?_⟩, hsib⟩ <;> simp
  · intro content hfc hdup hst
    simp only [download_artifact, hfind, hfc, hdup, hst]
    exact download_artifact_commit_success env _ _ content nextId

/-- Witness for C6's amended theorem: at the concrete failing fetch, the
unit of work commits `failed` with the count bumped from 1 to 2, records
the raised message, writes nothing, and the sibling row survives. -/
theorem C6_failure_handling_witness :
    (download_artifact env_c6 db_c6 5 9).success = false ∧
    (download_artifact env_c6 db_c6 5 9).writes = [] ∧
    (∃ a', (download_artifact env_c6 db_c6 5 9).db.find? (fun a => a.id == 5) = some a' ∧
      a'.status = "failed" ∧ a'.retryCount = 1 + 1 ∧
      a'.errorMessage = some "connection reset") ∧
    (∀ b ∈ db_c6, b.id ≠ 5 → b ∈ (download_artifact env_c6 db_c6 5 9).db) :=
  (C6_failure_handling env_c6 db_c6 5 9
    ⟨5, 3, "html", "d.htm", some "x.html", "u5", none, none, "pending_download", 1, 3, none⟩
    (by decide)).1 "connection reset" (by rfl)

/-- Claim C9, counterexample: with `M = 2` embedded references whose bytes
are identical, secondary discovery creates 2 artifacts in encounter order,
but the second one's local path is NOT the `_image-002` name the claim
prescribes: its content hash matches the first image (already
`'downloaded'`), so it reuses that artifact's `_image-001` path with status
`'skipped'`.  The second conjunct checks the same outcome through the whole
`download_artifact` run on the pending HTML artifact. -/
theorem C9_counterexample_duplicate_content_path :
    (process_images env_c9 1 "https://www.sec.gov/a/doc.htm" "NYSE/X/2025/doc.html"
        ["i1.gif", "i2.gif"] [html_art_c9] 10 1).created =
      [⟨10, 1, "image", "i1.gif", some "NYSE/X/2025/doc_image-001.gif",
          "https://www.sec.gov/a/i1.gif", some 1, some "HI", "downloaded", 0, 3, none⟩,
        ⟨11, 1, "image", "i2.gif", some "NYSE/X/2025/doc_image-001.gif",
          "https://www.sec.gov/a/i2.gif", some 1, some "HI", "skipped", 0, 3, none⟩] ∧
    (download_artifact env_c9
        [⟨1, 1, "html", "doc.htm", some "NYSE/X/2025/doc.html",
          "https://www.sec.gov/a/doc.htm", none, none, "pending_download", 0, 3, none⟩]
        1 10).db =
      [html_art_c9,
        ⟨10, 1, "image", "i1.gif", some "NYSE/X/2025/doc_image-001.gif",
          "https://www.sec.gov/a/i1.gif", some 1, some "HI", "downloaded", 0, 3, none⟩,
        ⟨11, 1, "image", "i2.gif", some "NYSE/X/2025/doc_image-001.gif",
          "https://www.sec.gov/a/i2.gif", some 1, some "HI", "skipped", 0, 3, none⟩] ∧
    (some "NYSE/X/2025/doc_image-001.gif" : Option String) ≠
      some "NYSE/X/2025/doc_image-002.gif" := by
  refine ⟨by decide, by decide, by decide⟩

theorem download_artifact_commit_writes (env : FetchEnv) (db1 : List Artifact)
    (art3 : Artifact) (content : List Nat) (nextId : Nat)
    (himg : art3.artifactType = "html" → env.images content = []) :
    (download_artifact_commit env db1 art3 content nextId).writes = [] := by
  unfold download_artifact_commit
  split_ifs with h
  · simp only [Bool.and_eq_true, beq_iff_eq] at h
    rw [himg h.1]
    rfl
  · rfl

theorem download_artifact_commit_db (env : FetchEnv) (db1 : List Artifact)
    (art3 : Artifact) (content : List Nat) (nextId : Nat)
    (himg : art3.artifactType = "html" → env.images content = []) :
    (download_artifact_commit env db1 art3 content nextId).db = updateArtifact db1 art3 := by
  unfold download_artifact_commit
  split_ifs with h
  · simp only [Bool.and_eq_true, beq_iff_eq] at h
    rw [himg h.1]
    rfl
  · rfl

/-- Claim C3 as amended and proved: `download_artifact` dedups against an
existing artifact that holds the same content hash with status
`'downloaded'` (the image path additionally accepts `'skipped'`; an
artifact whose hash is held only by `'skipped'` rows is not deduplicated —
see the counterexample).  When such a `'downloaded'` duplicate exists, the
artifact is committed `'skipped'`, its `local_path` set to the duplicate's
`local_path`, its hash recorded equal to the duplicate's, and the unit of
work writes no bytes — so the two artifacts share one storage path and
only the original physically wrote.  (`himg` keeps secondary image writes
out of the accounting for HTML artifacts.) -/
theorem C3_dedup_reuses_downloaded_path (env : FetchEnv) (db : List Artifact)
    (artId nextId : Nat) (art0 existing : Artifact) (content : List Nat)
    (hfind : db.find? (fun a => a.id == artId) = some art0)
    (hfetch : env.fetch art0.url = Except.ok content)
    (hdup : (updateArtifact db { art0 with status := "downloading" }).find?
        (fun a => a.sha256 == some (env.hash content) && a.status == "downloaded" &&
          a.id != art0.id) = some existing)
    (himg : art0.artifactType = "html" → env.images content = []) :
    (download_artifact env db artId nextId).success = true ∧
    (download_artifact env db artId nextId).writes = [] ∧
    existing.sha256 = some (env.hash content) ∧
    existing.status = "downloaded" ∧
    ∃ a', (download_artifact env db artId nextId).db.find? (fun a => a.id == artId) = some a' ∧
      a'.status = "skipped" ∧ a'.localPath = existing.localPath ∧
      a'.sha256 = some (env.hash content) := by
  have hid : art0.id = artId := by
    have := List.find?_some hfind
    simpa using this
  have hmem0 : ∃ x ∈ db, x.id = artId := ⟨art0, List.mem_of_find?_eq_some hfind, hid⟩
  have hex := List.find?_some hdup
  simp only [Bool.and_eq_true, beq_iff_eq] at hex
  simp only [download_artifact, hfind, hfetch, hdup]
  refine ⟨download_artifact_commit_success env _ _ content nextId, ?_, hex.1.1, hex.1.2, ?_⟩
  · exact download_artifact_commit_writes env _ _ content nextId himg
  · rw [download_artifact_commit_db env
      (updateArtifact db { art0 with status := "downloading" })
      { art0 with
          localPath := existing.localPath,
          fileSize := some content.length,
          sha256 := some (env.hash content),
          status := "skipped" }
      content nextId himg]
    exact ⟨_, find?_updateArtifact_self
      { art0 with
          localPath := existing.localPath,
          fileSize := some content.length,
          sha256 := some (env.hash content),
          status := "skipped" }
      artId hid
      (updateArtifact db { art0 with status := "downloading" })
      (exists_id_updateArtifact db { art0 with status := "downloading" } artId hid hmem0),
      rfl, rfl, rfl⟩

/-- Witness for C3's amended theorem: with the duplicate in status
`'downloaded'`, artifact 2 is committed `'skipped'`, shares `p1.gif`, and
nothing is written. -/
theorem C3_dedup_reuses_downloaded_path_witness :
    (download_artifact env_c3 db_c3w 2 100).success = true ∧
    (download_artifact env_c3 db_c3w 2 100).writes = [] ∧
    (⟨1, 1, "image", "i.gif", some "p1.gif", "u1", some 1, some "H", "downloaded", 0, 3,
        none⟩ : Artifact).sha256 = some (env_c3.hash [7]) ∧
    (⟨1, 1, "image", "i.gif", some "p1.gif", "u1", some 1, some "H", "downloaded", 0, 3,
        none⟩ : Artifact).status = "downloaded" ∧
    ∃ a', (download_artifact env_c3 db_c3w 2 100).db.find? (fun a => a.id == 2) = some a' ∧
      a'.status = "skipped" ∧
      a'.localPath = (⟨1, 1, "image", "i.gif", some "p1.gif", "u1", some 1, some "H",
        "downloaded", 0, 3, none⟩ : Artifact).localPath ∧
      a'.sha256 = some (env_c3.hash [7]) :=
  C3_dedup_reuses_downloaded_path env_c3 db_c3w 2 100
    ⟨2, 2, "xbrl_raw", "f.xml", some "p2.xml", "u2", none, none, "pending_download", 0, 3, none⟩
    ⟨1, 1, "image", "i.gif", some "p1.gif", "u1", some 1, some "H", "downloaded", 0, 3, none⟩
    [7] (by decide) (by rfl) (by decide) (by decide)

theorem process_images_clean (env : FetchEnv) (filingId : Nat) (baseUrl htmlPath : String)
    (hstore : ∀ p c, env.storeOk p c = true) :
    ∀ (urls : List String) (db : List Artifact) (nextId seq : Nat),
      (∀ u ∈ urls, ∃ c, env.fetch (resolve_image_url baseUrl u) = Except.ok c) →
      (∀ u ∈ urls, db.any (fun a => a.filingId == filingId &&
        a.url == resolve_image_url baseUrl u) = false) →
      (∀ u ∈ urls, ∀ c, env.fetch (resolve_image_url baseUrl u) = Except.ok c →
        db.find? (fun a => a.sha256 == some (env.hash c) &&
          (a.status == "downloaded" || a.status == "skipped")) = none) →
      urls.Pairwise (fun u v => resolve_image_url baseUrl u ≠ resolve_image_url baseUrl v) →
      urls.Pairwise (fun u v => ∀ c d,
        env.fetch (resolve_image_url baseUrl u) = Except.ok c →
        env.fetch (resolve_image_url baseUrl v) = Except.ok d → env.hash c ≠ env.hash d) →
      (process_images env filingId baseUrl htmlPath urls db nextId seq).created.length =
        urls.length ∧
      ∀ k v, urls.get? k = some v →
        ∃ a, (process_images env filingId baseUrl htmlPath urls db nextId seq).created.get? k =
            some a ∧
          a.status = "downloaded" ∧
          a.localPath = some (image_local_path htmlPath (seq + k)
            (image_ext (resolve_image_url baseUrl v))) := by
  intro urls
  induction urls with
  | nil =>
      intro db nextId seq _ _ _ _ _
      refine ⟨rfl, ?_⟩
      intro k v hv
      simp at hv
  | cons u rest ih =>
      intro db nextId seq hfetch hexist hdup hdist hhash
      obtain ⟨c, hc⟩ := hfetch u (List.mem_cons_self u rest)
      have hanyc : db.any (fun a => a.filingId == filingId &&
          a.url == resolve_image_url baseUrl u) = false :=
        hexist u (List.mem_cons_self u rest)
      have hdupc := hdup u (List.mem_cons_self u rest) c hc
      have hdistc := (List.pairwise_cons.mp hdist).1
      have hdistr := (List.pairwise_cons.mp hdist).2
      have hhashc := (List.pairwise_cons.mp hhash).1
      have hhashr := (List.pairwise_cons.mp hhash).2
      have hhead : download_and_record_image env db filingId
          (resolve_image_url baseUrl u) seq htmlPath nextId =
          ⟨db ++ [⟨nextId, filingId, "image",
              url_filename (resolve_image_url baseUrl u),
              some (image_local_path htmlPath seq
                (image_ext (resolve_image_url baseUrl u))),
              resolve_image_url baseUrl u, some c.length,
              some (env.hash c), "downloaded", 0, 3, none⟩],
            some ⟨nextId, filingId, "image",
              url_filename (resolve_image_url baseUrl u),
              some (image_local_path htmlPath seq
                (image_ext (resolve_image_url baseUrl u))),
              resolve_image_url baseUrl u, some c.length,
              some (env.hash c), "downloaded", 0, 3, none⟩,
            [(image_local_path htmlPath seq
                (image_ext (resolve_image_url baseUrl u)), c)]⟩ := by
        simp [download_and_record_image, hanyc, hc, hdupc, hstore, image_local_path]
      have hstep : process_images env filingId baseUrl htmlPath (u :: rest) db nextId seq =
          ⟨(process_images env filingId baseUrl htmlPath rest
              (db ++ [⟨nextId, filingId, "image",
                url_filename (resolve_image_url baseUrl u),
                some (image_local_path htmlPath seq
                  (image_ext (resolve_image_url baseUrl u))),
                resolve_image_url baseUrl u, some c.length,
                some (env.hash c), "downloaded", 0, 3, none⟩])
              (nextId + 1) (seq + 1)).db,
            (⟨nextId, filingId, "image",
              url_filename (resolve_image_url baseUrl u),
              some (image_local_path htmlPath seq
                (image_ext (resolve_image_url baseUrl u))),
              resolve_image_url baseUrl u, some c.length,
              some (env.hash c), "downloaded", 0, 3, none⟩ : Artifact) ::
              (process_images env filingId baseUrl htmlPath rest
                (db ++ [⟨nextId, filingId, "image",
                  url_filename (resolve_image_url baseUrl u),
                  some (image_local_path htmlPath seq
                    (image_ext (resolve_image_url baseUrl u))),
                  resolve_image_url baseUrl u, some c.length,
                  some (env.hash c), "downloaded", 0, 3, none⟩])
                (nextId + 1) (seq + 1)).created,
            [(image_local_path htmlPath seq
              (image_ext (resolve_image_url baseUrl u)), c)] ++
              (process_images env filingId baseUrl htmlPath rest
                (db ++ [⟨nextId, filingId, "image",
                  url_filename (resolve_image_url baseUrl u),
                  some (image_local_path htmlPath seq
                    (image_ext (resolve_image_url baseUrl u))),
                  resolve_image_url baseUrl u, some c.length,
                  some (env.hash c), "downloaded", 0, 3, none⟩])
                (nextId + 1) (seq + 1)).writes⟩ := by
        rw [process_images, hhead]
      obtain ⟨ihlen, ihidx⟩ := ih
        (db ++ [⟨nextId, filingId, "image",
          url_filename (resolve_image_url baseUrl u),
          some (image_local_path htmlPath seq
            (image_ext (resolve_image_url baseUrl u))),
          resolve_image_url baseUrl u, some c.length,
          some (env.hash c), "downloaded", 0, 3, none⟩])
        (nextId + 1) (seq + 1)
        (fun v hv => hfetch v (List.mem_cons_of_mem u hv))
        (by
          intro v hv
          have h1 := hexist v (List.mem_cons_of_mem u hv)
          have h2 := hdistc v hv
          simp [List.any_append, h1, h2])
        (by
          intro v hv d hd
          have h1 := hdup v (List.mem_cons_of_mem u hv) d hd
          have h2 := hhashc v hv c d hc hd
          rw [List.find?_append, h1]
          simp [h2])
        hdistr hhashr
      constructor
      · rw [hstep]
        simpa using ihlen
      · intro k v hv
        rw [hstep]
        cases k with
        | zero =>
            have hvu : v = u := by
              simp at hv
              exact hv.symm
            subst hvu
            refine ⟨_, rfl, rfl, ?_⟩
            simp
        | succ m =>
            have hv' : rest.get? m = some v := by
              simpa using hv
            obtain ⟨a, ha, hst, hlp⟩ := ihidx m v hv'
            refine ⟨a, ?_, hst, ?_⟩
            · simpa using ha
            · rw [hlp]
              have harith : seq + 1 + m = seq + (m + 1) := by omega
              rw [harith]

/-- Claim C9 as amended and proved: after a successful primary download of
an HTML document with `M` embedded image references, secondary discovery
runs them in encounter order with 1-based sequence numbers; provided every
image fetch succeeds, no artifact for the same `(filing, url)` already
exists, the resolved URLs are pairwise distinct, and the fetched contents'
hashes are fresh (no existing `'downloaded'`/`'skipped'` artifact holds
them) and pairwise distinct, exactly `M` image artifacts are created, and
the k-th (1-based) is `'downloaded'` at the HTML document's local path with
its extension replaced by `_image-NNN` plus the image's own extension,
where `NNN` is k zero-padded to at least three digits.  (An image whose
content hash is already held reuses that artifact's path with status
`'skipped'` instead — see the counterexample; an already-existing
`(filing, url)` pair or a failed fetch creates nothing.) -/
theorem C9_secondary_discovery_determinism (env : FetchEnv) (filingId : Nat)
    (baseUrl htmlPath : String) (urls : List String) (db : List Artifact) (nextId : Nat)
    (hstore : ∀ p c, env.storeOk p c = true)
    (hfetch : ∀ u ∈ urls, ∃ c, env.fetch (resolve_image_url baseUrl u) = Except.ok c)
    (hexist : ∀ u ∈ urls, db.any (fun a => a.filingId == filingId &&
      a.url == resolve_image_url baseUrl u) = false)
    (hdup : ∀ u ∈ urls, ∀ c, env.fetch (resolve_image_url baseUrl u) = Except.ok c →
      db.find? (fun a => a.sha256 == some (env.hash c) &&
        (a.status == "downloaded" || a.status == "skipped")) = none)
    (hdist : urls.Pairwise (fun u v => resolve_image_url baseUrl u ≠ resolve_image_url baseUrl v))
    (hhash : urls.Pairwise (fun u v => ∀ c d,
      env.fetch (resolve_image_url baseUrl u) = Except.ok c →
      env.fetch (resolve_image_url baseUrl v) = Except.ok d → env.hash c ≠ env.hash d)) :
    (process_images env filingId baseUrl htmlPath urls db nextId 1).created.length =
      urls.length ∧
    ∀ k v, urls.get? k = some v →
      ∃ a, (process_images env filingId baseUrl htmlPath urls db nextId 1).created.get? k =
          some a ∧
        a.status = "downloaded" ∧
        a.localPath = some (image_local_path htmlPath (k + 1)
          (image_ext (resolve_image_url baseUrl v))) := by
  obtain ⟨hlen, hidx⟩ := process_images_clean env filingId baseUrl htmlPath hstore
    urls db nextId 1 hfetch hexist hdup hdist hhash
  refine ⟨hlen, ?_⟩
  intro k v hv
  obtain ⟨a, ha, hst, hlp⟩ := hidx k v hv
  refine ⟨a, ha, hst, ?_⟩
  rw [hlp]
  have harith : 1 + k = k + 1 := by omega
  rw [harith]

/-- Witness for C9's amended theorem: two clean images yield exactly the
two `'downloaded'` artifacts `..._image-001.gif` and `..._image-002.gif`
in encounter order. -/
theorem C9_secondary_discovery_determinism_witness :
    (process_images env_c9w 1 "https://www.sec.gov/a/doc.htm" "NYSE/X/2025/doc.html"
        ["i1.gif", "i2.gif"] [] 10 1).created.length = (["i1.gif", "i2.gif"] : List String).length ∧
    ∀ k v, (["i1.gif", "i2.gif"] : List String).get? k = some v →
      ∃ a, (process_images env_c9w 1 "https://www.sec.gov/a/doc.htm" "NYSE/X/2025/doc.html"
          ["i1.gif", "i2.gif"] [] 10 1).created.get? k = some a ∧
        a.status = "downloaded" ∧
        a.localPath = some (image_local_path "NYSE/X/2025/doc.html" (k + 1)
          (image_ext (resolve_image_url "https://www.sec.gov/a/doc.htm" v))) := by
  refine C9_secondary_discovery_determinism env_c9w 1 "https://www.sec.gov/a/doc.htm"
    "NYSE/X/2025/doc.html" ["i1.gif", "i2.gif"] [] 10
    (fun _ _ => rfl) ?_ (fun u _ => rfl) (fun u _ c _ => rfl) (by decide) ?_
  · intro u hu
    rcases List.mem_cons.mp hu with rfl | hu2
    · exact ⟨[7], rfl⟩
    rcases List.mem_cons.mp hu2 with rfl | h3
    · exact ⟨[8], rfl⟩
    cases h3
  · refine List.pairwise_cons.mpr ⟨?_, ?_⟩
    · intro v hv c d hc hd
      rcases List.mem_cons.mp hv with rfl | h3
      · rw [show env_c9w.fetch (resolve_image_url "https://www.sec.gov/a/doc.htm" "i1.gif") =
            Except.ok [7] from rfl] at hc
        rw [show env_c9w.fetch (resolve_image_url "https://www.sec.gov/a/doc.htm" "i2.gif") =
            Except.ok [8] from rfl] at hd
        injection hc with hc1
        injection hd with hd1
        subst hc1
        subst hd1
        decide
      · cases h3
    · simp
